import Mathlib

/-!
A shallow embedding of the resilient OCR extraction pipeline of
`ExcllentCaseExpert` (`src/core/ocr_engine.py`, `src/utils/cache_manager.py`).

External library calls (OpenCV primitives, the OCR backends, the PDF
rasterizer, the filesystem and the clock) are modelled as oracle
parameters collected in environment structures; the control flow of the
repository's own code — branch structure, try/except handlers, retry
loop, degradation, fusion policy, cache TTL — is translated statement by
statement from the Python source.
-/

namespace ExcellentCase

/-- A decoded raster frame.  The pipeline's control flow never inspects
pixel data, so frames are abstract identifiers; the oracle functions of
the environment structures map frames to frames. -/
abbrev Frame := Nat

/-- The distinct `OCRException` messages raised by `ocr_engine.py`
(the code uses a single exception class whose message distinguishes the
failure kinds named in the spec). -/
inductive ErrKind
  /-- Message `文件不存在` — source path does not exist (`extract_text`). -/
  | fileNotFound
  /-- Message `不支持的文件格式` — extension outside the supported set. -/
  | unsupportedFormat
  /-- Message `无法读取图像文件` — `cv2.imread` returned `None`. -/
  | imageReadFail
  /-- Message `OCR 识别结果为空` — fusion of the attempt was empty. -/
  | emptyResult
  /-- Message `OCR 识别异常: ...` — a non-`OCRException` error wrapped by the
  generic `except Exception` handler of the retry loop. -/
  | wrappedGeneric
  /-- Message `所有 OCR 引擎（包括降级模式）都失败` — degraded path exhausted. -/
  | fallbackExhausted
  /-- Message `OCR 识别失败` — retry loop ended with no recorded exception. -/
  | noAttempts
  /-- Message `至少需要启用一个 OCR 引擎` — both engine flags disabled. -/
  | noEngineEnabled
  /-- Message `pdf2image 未安装` — PDF rasterizer import failed. -/
  | pdfImportFail
  /-- Message `PDF 文件为空或无法转换` — rasterizer produced zero pages. -/
  | pdfEmpty
  /-- Message `PDF 所有页面识别结果为空` — every page fused to empty. -/
  | pdfAllEmpty
  /-- Message `PDF 处理失败: ...` — non-`OCRException` error during PDF loop. -/
  | pdfWrapped
  deriving DecidableEq, Repr

/-! ## Result fusion (`OCREngine._merge_results`) -/

/-- Python's `'\n'.join(lines)`. -/
def joinLines (lines : List String) : String :=
  String.intercalate "\n" lines

/-- Model of `OCREngine._merge_results(paddle_result, tesseract_result)`.

The Python comparison `len(tesseract_text) > len(paddle_text) * 1.5`
is over exact values here (`1.5·x` is exactly representable as a float
for every realistic length), rendered as `3 * len(p) < 2 * len(t)`. -/
def merge_results (paddle_result tesseract_result : List String) : String :=
  if paddle_result ≠ [] ∧ tesseract_result = [] then
    joinLines paddle_result
  else if tesseract_result ≠ [] ∧ paddle_result = [] then
    joinLines tesseract_result
  else if paddle_result = [] ∧ tesseract_result = [] then
    ""
  else
    let paddle_text := joinLines paddle_result
    let tesseract_text := joinLines tesseract_result
    if 3 * paddle_text.length < 2 * tesseract_text.length then
      tesseract_text
    else
      paddle_text

/-! ## Cache (`CacheManager.get_ocr_cache` / `set_ocr_cache`) -/

/-- One on-disk cache file: either unparseable, or a JSON record with a
timestamp (seconds) and the cached text. -/
inductive CacheEntry
  | corrupted
  | valid (timestamp : Int) (text : String)
  deriving DecidableEq, Repr

/-- The OCR cache directory: a partial map from cache key (the MD5 of
the file's content) to the stored entry. -/
def CacheState := String → Option CacheEntry

/-- Number of seconds in `timedelta(days=7)`, the OCR cache TTL. -/
def ocrTTL : Int := 7 * 86400

/-- Remove one cache file (`cache_file.unlink()`). -/
def cacheErase (st : CacheState) (key : String) : CacheState :=
  fun k => if k = key then none else st k

/-- Model of `CacheManager.get_ocr_cache`, with the current wall-clock time
(seconds) passed explicitly.  Returns the cached text (or `none`) and
the cache directory state after the call: an entry older than the
7-day TTL is deleted and reported as a miss, and a corrupted entry is
likewise deleted and reported as a miss, never as an error. -/
def get_ocr_cache (st : CacheState) (now : Int) (key : String) :
    Option String × CacheState :=
  match st key with
  | none => (none, st)
  | some .corrupted => (none, cacheErase st key)
  | some (.valid ts text) =>
    if now - ts > ocrTTL then (none, cacheErase st key)
    else (some text, st)

/-- Model of `CacheManager.set_ocr_cache`: writes a record holding the
current timestamp and the text at the key, overwriting any previous entry. -/
def set_ocr_cache (st : CacheState) (now : Int) (key text : String) :
    CacheState :=
  fun k => if k = key then some (.valid now text) else st k

/-! ## Skew correction (`OCREngine._correct_skew`) -/

/-- Oracle view of the OpenCV primitives used by `_correct_skew`.
`hough` is `cv2.Canny` followed by `cv2.HoughLines`, reported as the
list of detected line orientations `np.degrees(theta)` (strongest
first, as OpenCV returns them), `none` when `HoughLines` returns
`None`, or an exception; `rotate a f` is
`cv2.warpAffine(f, cv2.getRotationMatrix2D(center, a, 1.0), (w, h),
INTER_CUBIC, BORDER_REPLICATE)` — under OpenCV's counter-clockwise
convention this rotates the frame by the negative of the detected
clockwise skew angle `a` — or an exception. -/
structure SkewEnv where
  hough : Frame → Except Unit (Option (List ℚ))
  rotate : ℚ → Frame → Except Unit Frame

/-- Python's `np.median`: middle element of the sorted data for odd length,
mean of the two middle elements for even length. -/
def npMedian (l : List ℚ) : ℚ :=
  let s := l.insertionSort (· ≤ ·)
  if l.length % 2 = 1 then s.getD (l.length / 2) 0
  else (s.getD (l.length / 2 - 1) 0 + s.getD (l.length / 2) 0) / 2

/-- The usable angles of `_correct_skew`: from the first 10 detected
lines (`lines[:10]`), the orientations `np.degrees(theta) - 90` that
satisfy `-45 < angle < 45`. -/
def usableAngles (degs : List ℚ) : List ℚ :=
  ((degs.take 10).map (fun th => th - 90)).filter
    (fun a => decide (-45 < a ∧ a < 45))

/-- Model of `OCREngine._correct_skew(image)`.  The whole body is inside
`try: ... except Exception: return image`, so every failure path
returns the input frame; a failure of the rotation call returns the
pre-rotation frame. -/
def correct_skew (env : SkewEnv) (image : Frame) : Frame :=
  match env.hough image with
  | .error _ => image
  | .ok none => image
  | .ok (some degs) =>
    if degs.length = 0 then image
    else
      let angles := usableAngles degs
      if angles = [] then image
      else
        let avg_angle := npMedian angles
        if |avg_angle| < 1/2 then image
        else
          match env.rotate avg_angle image with
          | .ok rotated => rotated
          | .error _ => image

/-! ## Preprocessing (`OCREngine.preprocess_image`) -/

/-- Oracle view of the OpenCV primitives used by `preprocess_image`.
`channels f` is `len(f.shape)` (3 for colour input); `cvtGray`,
`gaussianBlur` and `clahe` are `cv2.cvtColor(·, COLOR_BGR2GRAY)`,
`cv2.GaussianBlur(·, (5,5), 0)` and
`createCLAHE(2.0, (8,8)).apply(·)`, each of which may raise. -/
structure PreEnv where
  channels : Frame → Nat
  cvtGray : Frame → Except Unit Frame
  gaussianBlur : Frame → Except Unit Frame
  clahe : Frame → Except Unit Frame
  skew : SkewEnv

/-- Model of `OCREngine.preprocess_image(image)`.  Steps 1–3 (grayscale,
denoise, CLAHE) are not wrapped in any handler, so their exceptions
propagate to the caller; only step 4 (`_correct_skew`) swallows its
own exceptions. -/
def preprocess_image (env : PreEnv) (image : Frame) : Except Unit Frame := do
  let gray ←
    if env.channels image = 3 then env.cvtGray image
    else pure image
  let denoised ← env.gaussianBlur gray
  let enhanced ← env.clahe denoised
  pure (correct_skew env.skew enhanced)

/-! ## Single-image extraction (`OCREngine._extract_text_from_image`) -/

/-- Oracle view of one single-image extraction request.

`imreadOk` — whether `cv2.imread(file_path)` returns a frame (the file
is fixed for the whole request, so this does not vary per attempt);
`preprocessOk` — whether `preprocess_image` on that frame returns
normally (deterministic for a fixed frame, hence one flag; when false
the raised error is not an `OCRException`, so it is handled by the
generic `except Exception` arm);
`paddleEnabled` / `tessEnabled` — `self.paddle_ocr is not None` and
`self.tesseract_available`;
`paddle j` / `tess j` — the line list produced by the j-th call of the
session to `_paddle_ocr` / `_tesseract_ocr` (both helpers catch their
own exceptions and return `[]`, so a failed call is an empty list). -/
structure ImgEnv where
  imreadOk : Bool
  preprocessOk : Bool
  paddleEnabled : Bool
  tessEnabled : Bool
  paddle : Nat → List String
  tess : Nat → List String

/-- Observable side effects of one extraction request: the recorded
`time.sleep` durations (seconds, in order), how many times each
backend was invoked, and how many times the degraded single-engine
path (`_fallback_single_engine`) was entered. -/
structure Trace where
  sleeps : List Nat
  paddleCalls : Nat
  tessCalls : Nat
  fallbackRuns : Nat
  deriving DecidableEq, Repr

/-- The trace before any work is done. -/
def Trace.init : Trace := ⟨[], 0, 0, 0⟩

/-- How an attempt body fails, matching the two `except` arms of the
retry loop: an `OCRException` of kind `k`, or any other exception. -/
inductive AttemptErr
  | ocrExc (k : ErrKind)
  | genericExc
  deriving DecidableEq, Repr

/-- The body of one iteration of the retry loop of
`_extract_text_from_image` (read image, preprocess, run both enabled
backends with per-backend exception isolation, fuse, raise
`OCRException` on empty fusion). -/
def attemptOnce (env : ImgEnv) (t : Trace) :
    Except AttemptErr String × Trace :=
  if env.imreadOk = false then (.error (.ocrExc .imageReadFail), t)
  else if env.preprocessOk = false then (.error .genericExc, t)
  else
    let (paddle_result, t1) :=
      if env.paddleEnabled then
        (env.paddle t.paddleCalls, { t with paddleCalls := t.paddleCalls + 1 })
      else ([], t)
    let (tesseract_result, t2) :=
      if env.tessEnabled then
        (env.tess t1.tessCalls, { t1 with tessCalls := t1.tessCalls + 1 })
      else ([], t1)
    let text := merge_results paddle_result tesseract_result
    if text = "" then (.error (.ocrExc .emptyResult), t2)
    else (.ok text, t2)

/-- Model of `OCREngine._fallback_single_engine(file_path)`: re-read the image,
grayscale only (no denoise, no CLAHE, no skew correction), then try
the backends one at a time — primary first — returning the joined
text of the first backend whose line list is non-empty; raise if all
are empty.  (The grayscale conversion feeds the backends but cannot
influence which branch is taken, since backend output is modelled per
call.) -/
def fallback_single_engine (env : ImgEnv) (t0 : Trace) :
    Except ErrKind String × Trace :=
  let t := { t0 with fallbackRuns := t0.fallbackRuns + 1 }
  if env.imreadOk = false then (.error .imageReadFail, t)
  else
    let (paddle_result, t1) :=
      if env.paddleEnabled then
        (env.paddle t.paddleCalls, { t with paddleCalls := t.paddleCalls + 1 })
      else ([], t)
    if paddle_result ≠ [] then (.ok (joinLines paddle_result), t1)
    else
      let (tesseract_result, t2) :=
        if env.tessEnabled then
          (env.tess t1.tessCalls, { t1 with tessCalls := t1.tessCalls + 1 })
        else ([], t1)
      if tesseract_result ≠ [] then (.ok (joinLines tesseract_result), t2)
      else (.error .fallbackExhausted, t2)

/-- The `for attempt in range(max_retries)` loop of
`_extract_text_from_image`, with `fuel` iterations left and `attempt`
the current 0-based index (the caller keeps `attempt + fuel =
max_retries`).  An `OCRException` on a non-final attempt sleeps
`2 ** attempt` seconds and retries; on the final attempt it switches
to the degraded single-engine path.  Any other exception is wrapped
into an `OCRException` stored in `last_exception`, sleeps and retries
on non-final attempts, and on the final attempt falls out of the loop,
after which `last_exception` is raised. -/
def retryLoop (env : ImgEnv) (max_retries : Nat) :
    Nat → Nat → Option ErrKind → Trace → Except ErrKind String × Trace
  | 0, _, last_exception, t =>
    (.error (last_exception.getD .noAttempts), t)
  | fuel + 1, attempt, _, t =>
    match attemptOnce env t with
    | (.ok text, t') => (.ok text, t')
    | (.error (.ocrExc k), t') =>
      if attempt < max_retries - 1 then
        retryLoop env max_retries fuel (attempt + 1) (some k)
          { t' with sleeps := t'.sleeps ++ [2 ^ attempt] }
      else
        fallback_single_engine env t'
    | (.error .genericExc, t') =>
      if attempt < max_retries - 1 then
        retryLoop env max_retries fuel (attempt + 1) (some .wrappedGeneric)
          { t' with sleeps := t'.sleeps ++ [2 ^ attempt] }
      else
        (.error .wrappedGeneric, t')

/-- Model of `OCREngine._extract_text_from_image(file_path, max_retries)`. -/
def extract_text_from_image (env : ImgEnv) (max_retries : Nat) :
    Except ErrKind String × Trace :=
  retryLoop env max_retries max_retries 0 none Trace.init

/-! ## PDF extraction (`OCREngine._extract_text_from_pdf`) -/

/-- Oracle view of one PDF extraction request.  `pdf2imageOk` — the
`from pdf2image import convert_from_path` import succeeds;
`convert` — the number of rasterized pages, or an exception;
`preprocessOk i` — whether `preprocess_image` returns normally on page
`i` (0-based; pages are distinct frames, so this is page-dependent,
and a failure is a non-`OCRException` error); backends as in
`ImgEnv`, indexed by call number. -/
structure PdfEnv where
  pdf2imageOk : Bool
  convert : Except Unit Nat
  preprocessOk : Nat → Bool
  paddleEnabled : Bool
  tessEnabled : Bool
  paddle : Nat → List String
  tess : Nat → List String

/-- The page-boundary marker plus page text:
`f"--- 第 {page_num} 页 ---\n{page_text}"` with `page_num` 1-based. -/
def pageMark (page_num : Nat) (page_text : String) : String :=
  "--- 第 " ++ toString page_num ++ " 页 ---\n" ++ page_text

/-- The per-page loop of `_extract_text_from_pdf`: for each remaining
page (0-based index `i`; `pc`, `tc` are the backend call counters so
far) preprocess, run both enabled backends, fuse, and append the
marked page text when the fusion is non-empty.  A preprocessing
exception on any page aborts the whole document (it is caught only by
the outer `except Exception`, which wraps it as `PDF 处理失败`). -/
def pdfPages (env : PdfEnv) : Nat → Nat → Nat → Nat → Except ErrKind (List String)
  | 0, _, _, _ => .ok []
  | remaining + 1, i, pc, tc =>
    if env.preprocessOk i = false then .error .pdfWrapped
    else
      let (paddle_result, pc') :=
        if env.paddleEnabled then (env.paddle pc, pc + 1) else ([], pc)
      let (tesseract_result, tc') :=
        if env.tessEnabled then (env.tess tc, tc + 1) else ([], tc)
      let page_text := merge_results paddle_result tesseract_result
      match pdfPages env remaining (i + 1) pc' tc' with
      | .error e => .error e
      | .ok rest =>
        if page_text = "" then .ok rest
        else .ok (pageMark (i + 1) page_text :: rest)

/-- Model of `OCREngine._extract_text_from_pdf(file_path, max_retries)` — note
the pages get a single pass each: the `max_retries` argument is not
used on this path.  Successful pages are joined with `"\n\n"`; if the
page list is empty the request fails, and if every page fused to empty
the request fails. -/
def extract_text_from_pdf (env : PdfEnv) : Except ErrKind String :=
  if env.pdf2imageOk = false then .error .pdfImportFail
  else
    match env.convert with
    | .error _ => .error .pdfWrapped
    | .ok numPages =>
      if numPages = 0 then .error .pdfEmpty
      else
        match pdfPages env numPages 0 0 0 with
        | .error e => .error e
        | .ok [] => .error .pdfAllEmpty
        | .ok all_text => .ok (String.intercalate "\n\n" all_text)

/-! ## Request entry point (`OCREngine.extract_text`) -/

/-- The `supported_formats` list of `extract_text`. -/
def supported_formats : List String := [".png", ".jpg", ".jpeg", ".pdf"]

/-- Oracle view of one `extract_text` request: whether the resolved
path exists, its lower-cased suffix, the cache lookup result
(`get_ocr_cache`), and the oracles for the image / PDF paths. -/
structure ReqEnv where
  fileExists : Bool
  ext : String
  cached : Option String
  img : ImgEnv
  pdf : PdfEnv

/-- Model of `OCREngine.extract_text(file_path, max_retries)`: validation
(existence, then format) fails immediately before any recognition
work; a non-empty cached text (`if cached_text:` — Python truthiness,
so an empty cached string is ignored) is returned without running the
pipeline; otherwise the PDF or image path runs.  The final
`set_ocr_cache` write does not affect the returned value and is
modelled separately in the cache section. -/
def extract_text (env : ReqEnv) (max_retries : Nat) :
    Except ErrKind String × Trace :=
  if env.fileExists = false then (.error .fileNotFound, Trace.init)
  else if (supported_formats.contains env.ext) = false then
    (.error .unsupportedFormat, Trace.init)
  else if env.cached.getD "" ≠ "" then (.ok (env.cached.getD ""), Trace.init)
  else if env.ext = ".pdf" then (extract_text_from_pdf env.pdf, Trace.init)
  else extract_text_from_image env.img max_retries

/-! ## Engine construction (`OCREngine.__init__`) -/

/-- Model of `OCREngine.__init__(use_paddle, use_tesseract)` together with
`_init_paddle_ocr` / `_init_tesseract`.  `paddleInitOk` /
`tessInitOk` — whether the engine import + probe succeeds when
attempted.  Construction raises only when both `use_*` flags are
false; an initialization failure merely leaves that backend disabled
(`paddle_ocr = None` / `tesseract_available = False`).  Returns the
pair `(paddle_enabled, tesseract_enabled)` of the constructed
session. -/
def init_engine (use_paddle use_tesseract paddleInitOk tessInitOk : Bool) :
    Except ErrKind (Bool × Bool) :=
  if use_paddle = false ∧ use_tesseract = false then .error .noEngineEnabled
  else .ok (use_paddle && paddleInitOk, use_tesseract && tessInitOk)

/-! ## Derived values and concrete scenario environments -/

/-- The fused text of the attempt that consumes the j-th call of each
enabled backend (a disabled backend contributes an empty list). -/
def fusionAt (env : ImgEnv) (j : Nat) : String :=
  merge_results (if env.paddleEnabled then env.paddle j else [])
                (if env.tessEnabled then env.tess j else [])

/-- The fused text of page `i` (0-based): when no page's preprocessing
fails, each enabled backend's i-th call serves page i. -/
def pdfPageText (env : PdfEnv) (i : Nat) : String :=
  merge_results (if env.paddleEnabled then env.paddle i else [])
                (if env.tessEnabled then env.tess i else [])

/-- A preprocessing oracle in which the Gaussian-blur step raises
(e.g. `cv2.GaussianBlur` rejecting the buffer) while every other step
behaves normally. -/
def blurFailsEnv : PreEnv :=
  { channels := fun _ => 1
    cvtGray := fun f => .ok f
    gaussianBlur := fun _ => .error ()
    clahe := fun f => .ok f
    skew := { hough := fun _ => .ok none, rotate := fun _ f => .ok f } }

/-- A 3-page document on which only the primary backend is available:
page 1 reads `"a"`, page 2 fuses to empty (recognition fails), page 3
reads `"b"`. -/
def pdfEnvC5 : PdfEnv :=
  { pdf2imageOk := true
    convert := .ok 3
    preprocessOk := fun _ => true
    paddleEnabled := true
    tessEnabled := false
    paddle := fun i => [["a"], [], ["b"]].getD i []
    tess := fun _ => [] }

/-! ## C1 — fusion policy -/

/-- C1: with both engines producing non-empty line lists, fusion
returns the Tesseract joined text exactly when its character length
strictly exceeds 1.5× the PaddleOCR joined-text length (rendered
exactly as `3·len(paddle) < 2·len(tesseract)`), and the PaddleOCR text
otherwise — in particular at exactly 1.5×; with exactly one engine
non-empty it returns that engine's joined text; with neither it
returns the empty string (fusion is total). -/
theorem merge_results_policy :
    (∀ p t, p ≠ [] → t ≠ [] →
      merge_results p t =
        if 3 * (joinLines p).length < 2 * (joinLines t).length then joinLines t
        else joinLines p)
    ∧ (∀ p t, p ≠ [] → t ≠ [] →
        2 * (joinLines t).length = 3 * (joinLines p).length →
        merge_results p t = joinLines p)
    ∧ (∀ p, p ≠ [] → merge_results p [] = joinLines p)
    ∧ (∀ t, t ≠ [] → merge_results [] t = joinLines t)
    ∧ merge_results [] [] = "" := by
  refine ⟨?_, ?_, ?_, ?_, rfl⟩
  · intro p t hp ht
    simp only [merge_results, hp, ht, ne_eq, not_true_eq_false, not_false_eq_true,
      and_false, and_true, false_and, if_false]
  · intro p t hp ht h
    simp only [merge_results, hp, ht, ne_eq, not_true_eq_false, not_false_eq_true,
      and_false, and_true, false_and, if_false]
    rw [← h]
    simp
  · intro p hp
    simp [merge_results, hp]
  · intro t ht
    simp [merge_results, ht]

/-- Concrete instances of the fusion policy: lengths 2 vs 3 is exactly
the 1.5× boundary (primary wins); lengths 2 vs 4 exceeds it
(secondary wins); one-sided and empty cases. -/
theorem merge_results_policy_witness :
    merge_results ["ab"] ["abc"] = "ab"
    ∧ merge_results ["ab"] ["abcd"] = "abcd"
    ∧ merge_results ["hi"] [] = "hi"
    ∧ merge_results [] ["hi"] = "hi"
    ∧ merge_results [] [] = "" := by
  have h0 := merge_results_policy
  refine ⟨?_, ?_, ?_, ?_, h0.2.2.2.2⟩
  · have h := h0.2.1 ["ab"] ["abc"] (by decide) (by decide) (by decide)
    simpa using h
  · have h := h0.1 ["ab"] ["abcd"] (by decide) (by decide)
    simpa using h
  · have h := h0.2.2.1 ["hi"] (by decide)
    simpa using h
  · have h := h0.2.2.2.1 ["hi"] (by decide)
    simpa using h

/-! ## C9 — cache round-trip, TTL expiry, corruption handling -/

/-- C9: a `set` followed immediately by a `get` of the same key
returns the text just stored; a `get` of an entry older than the 7-day
TTL deletes the entry from storage and reports a miss; a `get` of a
corrupted entry likewise deletes it and reports a miss — all without
any error path (`get_ocr_cache` is total). -/
theorem cache_roundtrip_ttl_corruption :
    (∀ (st : CacheState) (now : Int) (key text : String),
      (get_ocr_cache (set_ocr_cache st now key text) now key).1 = some text)
    ∧ (∀ (st : CacheState) (now ts : Int) (key text : String),
        st key = some (.valid ts text) → now - ts > ocrTTL →
        (get_ocr_cache st now key).1 = none ∧
        (get_ocr_cache st now key).2 key = none)
    ∧ (∀ (st : CacheState) (now : Int) (key : String),
        st key = some .corrupted →
        (get_ocr_cache st now key).1 = none ∧
        (get_ocr_cache st now key).2 key = none) := by
  refine ⟨?_, ?_, ?_⟩
  · intro st now key text
    simp [get_ocr_cache, set_ocr_cache, ocrTTL]
  · intro st now ts key text h hexp
    rw [get_ocr_cache, h]
    simp [if_pos hexp, cacheErase]
  · intro st now key h
    rw [get_ocr_cache, h]
    simp [cacheErase]

/-- Concrete cache scenarios: a fresh round-trip of `"hello"`, an
entry one second past the 7-day TTL (miss + deletion), and a corrupted
entry (miss + deletion). -/
theorem cache_roundtrip_ttl_corruption_witness :
    (get_ocr_cache (set_ocr_cache (fun _ => none) 0 "k" "hello") 0 "k").1
      = some "hello"
    ∧ (get_ocr_cache
        (fun k => if k = "k" then some (.valid 0 "old") else none)
        604801 "k").1 = none
    ∧ (get_ocr_cache
        (fun k => if k = "k" then some (.valid 0 "old") else none)
        604801 "k").2 "k" = none
    ∧ (get_ocr_cache
        (fun k => if k = "k" then some (.corrupted) else none) 0 "k").1 = none
    ∧ (get_ocr_cache
        (fun k => if k = "k" then some (.corrupted) else none) 0 "k").2 "k"
      = none := by
  have h0 := cache_roundtrip_ttl_corruption
  have h1 := h0.1 (fun _ => none) 0 "k" "hello"
  have h2 := h0.2.1 (fun k => if k = "k" then some (.valid 0 "old") else none)
    604801 0 "k" "old" (by simp) (by decide)
  have h3 := h0.2.2 (fun k => if k = "k" then some (.corrupted) else none)
    0 "k" (by simp)
  exact ⟨h1, h2.1, h2.2, h3.1, h3.2⟩

/-! ## C6 — backend initialization -/

/-- C6 counterexample: with both engine flags on but both
initializations failing (e.g. neither library installed), construction
succeeds and returns a session with zero enabled backends — it does
not fail fast with a configuration error, contradicting the claim that
zero enabled backends fails construction. -/
theorem init_engine_zero_backends_constructs :
    init_engine true true false false = .ok (false, false) := by
  simp [init_engine]

/-- C6 (amended): construction fails fast exactly when both engine
*flags* are disabled by configuration; an initialization failure of a
backend disables it for the session without failing construction, even
when this leaves zero backends enabled. -/
theorem init_engine_spec :
    (∀ up ut p t, init_engine up ut p t = .error .noEngineEnabled ↔
      (up = false ∧ ut = false))
    ∧ (∀ up ut p t, (up = true ∨ ut = true) →
        init_engine up ut p t = .ok (up && p, ut && t)) := by
  constructor
  · intro up ut p t
    cases up <;> cases ut <;> simp [init_engine]
  · intro up ut p t h
    rcases h with h | h <;> subst h <;> simp [init_engine]

/-- Concrete construction scenarios: both flags off fails fast; one
flag on with a failed init yields a session whose only enabled backend
is the other one. -/
theorem init_engine_spec_witness :
    init_engine false false true true = .error .noEngineEnabled
    ∧ init_engine true true false true = .ok (false, true) := by
  have h0 := init_engine_spec
  refine ⟨(h0.1 false false true true).mpr ⟨rfl, rfl⟩, ?_⟩
  have h := h0.2 true true false true (Or.inl rfl)
  simpa using h

/-! ## C2 — preprocessing totality -/

/-- C2 counterexample: `preprocess_image` is *not* total — a failure
in the denoise step propagates out of `process` instead of falling
back to the unchanged frame, because steps 1–3 (grayscale, denoise,
contrast) are not wrapped in any handler in the source; only the skew
step has a fallback. -/
theorem preprocess_image_can_fail :
    preprocess_image blurFailsEnv 0 = .error () := rfl

/-- C2 (amended): whenever the grayscale, denoise and contrast steps
return normally, `preprocess_image` returns a frame; failures inside
the skew-correction step never propagate (`correct_skew` is total,
returning its pre-rotation input on any internal exception). -/
theorem preprocess_image_total_when_steps_ok (env : PreEnv) (image : Frame)
    (hg : ∀ f, ∃ g, env.cvtGray f = .ok g)
    (hb : ∀ f, ∃ g, env.gaussianBlur f = .ok g)
    (hc : ∀ f, ∃ g, env.clahe f = .ok g) :
    ∃ out, preprocess_image env image = .ok out := by
  unfold preprocess_image
  by_cases hch : env.channels image = 3
  · obtain ⟨g, hg'⟩ := hg image
    obtain ⟨d, hb'⟩ := hb g
    obtain ⟨e, hc'⟩ := hc d
    exact ⟨correct_skew env.skew e,
      by simp [hch, hg', hb', hc', Bind.bind, Except.bind, Pure.pure, Except.pure]⟩
  · obtain ⟨d, hb'⟩ := hb image
    obtain ⟨e, hc'⟩ := hc d
    exact ⟨correct_skew env.skew e,
      by simp [hch, hb', hc', Bind.bind, Except.bind, Pure.pure, Except.pure]⟩

/-- A well-behaved preprocessing oracle and the frame it produces. -/
theorem preprocess_image_total_witness :
    ∃ out,
      preprocess_image
        { channels := fun _ => 3
          cvtGray := fun f => .ok f
          gaussianBlur := fun f => .ok f
          clahe := fun f => .ok f
          skew := { hough := fun _ => .ok none, rotate := fun _ f => .ok f } }
        0 = .ok out :=
  preprocess_image_total_when_steps_ok _ 0
    (fun f => ⟨f, rfl⟩) (fun f => ⟨f, rfl⟩) (fun f => ⟨f, rfl⟩)

/-! ## C7 — request validation fails fast -/

/-- C7: a request for a nonexistent path fails immediately with the
file-not-found error, and an existing path with an unsupported
extension fails immediately with the unsupported-format error — in
both cases with the initial trace: zero sleeps, zero backend calls,
zero degradation runs, i.e. before any recognition work. -/
theorem extract_text_validation_fails_fast (env : ReqEnv) (max_retries : Nat) :
    (env.fileExists = false →
      extract_text env max_retries = (.error .fileNotFound, Trace.init))
    ∧ (env.fileExists = true → supported_formats.contains env.ext = false →
      extract_text env max_retries = (.error .unsupportedFormat, Trace.init)) := by
  constructor
  · intro h
    simp [extract_text, h]
  · intro h hfmt
    simp only [extract_text, h, hfmt]
    norm_num

/-- The spec's end-to-end scenario B: `"/no/such/file.png"` does not
exist → immediate `FileNotFound` with no recorded sleep; and an
existing `.bmp` file → immediate `UnsupportedFormat` likewise. -/
theorem extract_text_validation_witness :
    (extract_text
      { fileExists := false, ext := ".png", cached := none
        img := ⟨true, true, true, true, fun _ => [], fun _ => []⟩
        pdf := ⟨true, .ok 0, fun _ => true, true, true, fun _ => [], fun _ => []⟩ }
      3 = (.error .fileNotFound, Trace.init))
    ∧ (extract_text
      { fileExists := true, ext := ".bmp", cached := none
        img := ⟨true, true, true, true, fun _ => [], fun _ => []⟩
        pdf := ⟨true, .ok 0, fun _ => true, true, true, fun _ => [], fun _ => []⟩ }
      3 = (.error .unsupportedFormat, Trace.init)) := by
  constructor
  · exact (extract_text_validation_fails_fast _ 3).1 rfl
  · exact (extract_text_validation_fails_fast _ 3).2 rfl (by decide)

/-! ## C8 — skew correction -/

/-- If the frame has no detected lines the angle list is empty. -/
lemma usableAngles_nil : usableAngles [] = [] := rfl

/-- Only the first 10 detected lines contribute usable angles. -/
lemma usableAngles_take_10 (degs : List ℚ) :
    usableAngles (degs.take 10) = usableAngles degs := by
  unfold usableAngles
  rw [List.take_take]
  norm_num

/-- C8: `_correct_skew` (i) returns the input frame when edge/line
detection raises or finds no lines; (ii) returns the input frame when
no angle within the strict ±45° window survives from the first 10
lines; (iii) skips rotation when the median usable angle is below 0.5°
in absolute value; (iv) otherwise invokes the rotation primitive
(replicate-border warp by the median angle, which under OpenCV's
counter-clockwise convention undoes the detected clockwise skew) and
returns its output, falling back to the pre-rotation frame if the
rotation raises; (v) the result depends on at most the first 10
detected lines; and (vi) the angle used is the median of the usable
angles — for an odd number of angles an actual datum, not their
mean. -/
theorem correct_skew_spec :
    (∀ (env : SkewEnv) (img : Frame),
      env.hough img = .error () → correct_skew env img = img)
    ∧ (∀ (env : SkewEnv) (img : Frame),
      env.hough img = .ok none → correct_skew env img = img)
    ∧ (∀ (env : SkewEnv) (img : Frame) (degs : List ℚ),
      env.hough img = .ok (some degs) → usableAngles degs = [] →
      correct_skew env img = img)
    ∧ (∀ (env : SkewEnv) (img : Frame) (degs : List ℚ),
      env.hough img = .ok (some degs) →
      |npMedian (usableAngles degs)| < 1/2 →
      correct_skew env img = img)
    ∧ (∀ (env : SkewEnv) (img : Frame) (degs : List ℚ),
      env.hough img = .ok (some degs) →
      usableAngles degs ≠ [] → ¬|npMedian (usableAngles degs)| < 1/2 →
      (∀ r, env.rotate (npMedian (usableAngles degs)) img = .ok r →
        correct_skew env img = r)
      ∧ (env.rotate (npMedian (usableAngles degs)) img = .error () →
        correct_skew env img = img))
    ∧ (∀ (rot : ℚ → Frame → Except Unit Frame) (img : Frame) (degs : List ℚ),
      correct_skew ⟨fun _ => .ok (some degs), rot⟩ img
        = correct_skew ⟨fun _ => .ok (some (degs.take 10)), rot⟩ img)
    ∧ (∀ l : List ℚ, l ≠ [] → l.length % 2 = 1 → npMedian l ∈ l) := by
  refine ⟨?_, ?_, ?_, ?_, ?_, ?_, ?_⟩
  · intro env img h
    unfold correct_skew
    rw [h]
  · intro env img h
    unfold correct_skew
    rw [h]
  · intro env img degs h hu
    unfold correct_skew
    rw [h]
    simp [hu]
  · intro env img degs h hmed
    unfold correct_skew
    rw [h]
    by_cases hd : degs.length = 0
    · simp [hd]
    · by_cases hu : usableAngles degs = []
      · simp [hd, hu]
      · simp only [if_neg hd, if_neg hu, if_pos hmed]
  · intro env img degs h hu hmed
    have hd : degs.length ≠ 0 := by
      intro hd
      rw [List.length_eq_zero.mp hd] at hu
      exact hu usableAngles_nil
    constructor
    · intro r hr
      unfold correct_skew
      rw [h]
      simp only [if_neg hd, if_neg hu, if_neg hmed, hr]
    · intro hr
      unfold correct_skew
      rw [h]
      simp only [if_neg hd, if_neg hu, if_neg hmed, hr]
  · intro rot img degs
    by_cases hd : degs.length = 0
    · rw [List.length_eq_zero.mp hd]
      simp
    · have hd10 : (degs.take 10).length ≠ 0 := by
        rw [List.length_take]
        omega
      unfold correct_skew
      simp only [usableAngles_take_10, if_neg hd, if_neg hd10]
  · intro l hne hodd
    unfold npMedian
    rw [if_pos hodd]
    have hpos : 0 < l.length := List.length_pos.mpr hne
    have hlt : l.length / 2 < (l.insertionSort (· ≤ ·)).length := by
      rw [List.length_insertionSort]
      omega
    rw [List.getD_eq_getElem _ _ hlt]
    exact (List.perm_insertionSort _ l).mem_iff.mp (List.getElem_mem hlt)

/-- A frame with a single detected line at 92° (skew angle 2°, above
the 0.5° threshold) is rotated by the oracle; and the median of
`[0, 1, 44]` is one of the data (it is 1, where the mean would be
15). -/
theorem correct_skew_spec_witness :
    correct_skew ⟨fun _ => .ok (some [92]), fun _ f => .ok (f + 1)⟩ 0 = 1
    ∧ npMedian [0, 1, 44] ∈ [(0 : ℚ), 1, 44] := by
  have h0 := correct_skew_spec
  constructor
  · exact (h0.2.2.2.2.1 ⟨fun _ => .ok (some [92]), fun _ f => .ok (f + 1)⟩ 0
      [92] rfl (by norm_num [usableAngles])
      (by norm_num [npMedian, usableAngles, List.insertionSort,
        List.orderedInsert])).1 1 rfl
  · exact h0.2.2.2.2.2.2 [0, 1, 44] (by simp) rfl

/-! ## Retry-loop analysis (shared by C3, C4, C10) -/

lemma merge_results_nil_nil : merge_results [] [] = "" := rfl

/-- One attempt body, when reading and preprocessing succeed, run from
a trace whose backend counters are both at `a`: it produces the fused
text `fusionAt env a` (an empty-fusion `OCRException` when empty) and
advances each enabled backend's counter. -/
lemma attemptOnce_at (env : ImgEnv)
    (h1 : env.imreadOk = true) (h2 : env.preprocessOk = true)
    (a : Nat) (sl : List Nat) (fb : Nat) :
    attemptOnce env
      ⟨sl, (if env.paddleEnabled then a else 0),
           (if env.tessEnabled then a else 0), fb⟩
    = ((if fusionAt env a = "" then .error (.ocrExc .emptyResult)
        else .ok (fusionAt env a)),
       ⟨sl, (if env.paddleEnabled then a + 1 else 0),
            (if env.tessEnabled then a + 1 else 0), fb⟩) := by
  unfold attemptOnce fusionAt
  rw [h1, h2]
  by_cases hp : env.paddleEnabled <;> by_cases ht : env.tessEnabled <;>
    simp [hp, ht] <;> split <;> rfl

/-- The degraded path records no sleep. -/
lemma fallback_single_engine_sleeps (env : ImgEnv) (t : Trace) :
    (fallback_single_engine env t).2.sleeps = t.sleeps := by
  unfold fallback_single_engine
  dsimp only
  repeat' split
  all_goals rfl

/-- When reading and preprocessing succeed but every remaining
attempt's fusion is empty, the retry loop sleeps `2 ^ n` seconds after
each failed attempt `n` except the last, then hands the final trace to
the degraded single-engine path. -/
lemma retryLoop_all_fail (env : ImgEnv) (mr : Nat)
    (h1 : env.imreadOk = true) (h2 : env.preprocessOk = true) :
    ∀ fuel attempt last sl fb, attempt + fuel = mr → 1 ≤ fuel →
    (∀ j, attempt ≤ j → j < mr → fusionAt env j = "") →
    retryLoop env mr fuel attempt last
      ⟨sl, (if env.paddleEnabled then attempt else 0),
           (if env.tessEnabled then attempt else 0), fb⟩
    = fallback_single_engine env
        ⟨sl ++ (List.range' attempt (fuel - 1)).map (fun n => 2 ^ n),
         (if env.paddleEnabled then mr else 0),
         (if env.tessEnabled then mr else 0), fb⟩ := by
  intro fuel
  induction fuel with
  | zero => intro attempt last sl fb hsum hge; omega
  | succ f ih =>
    intro attempt last sl fb hsum hge hfail
    have hemp : fusionAt env attempt = "" :=
      hfail attempt le_rfl (by omega)
    simp only [retryLoop]
    rw [attemptOnce_at env h1 h2, if_pos hemp]
    dsimp only
    match f, hsum with
    | 0, hsum =>
      have hlast : ¬attempt < mr - 1 := by omega
      have hmr : attempt + 1 = mr := by omega
      rw [if_neg hlast]
      simp [hmr]
    | f' + 1, hsum =>
      have hcont : attempt < mr - 1 := by omega
      rw [if_pos hcont]
      have h := ih (attempt + 1) (some .emptyResult) (sl ++ [2 ^ attempt]) fb
        (by omega) (by omega) (fun j hj hj' => hfail j (by omega) hj')
      rw [h]
      have hr : List.range' attempt (f' + 1 + 1 - 1) =
          attempt :: List.range' (attempt + 1) f' := by
        have : f' + 1 + 1 - 1 = f' + 1 := by omega
        rw [this]
        exact List.range'_succ _ _ _
      rw [hr]
      simp [List.append_assoc]

/-- When reading succeeds but preprocessing raises a non-OCR error,
every attempt takes the generic handler: the loop sleeps after each
failed attempt except the last, touches no backend, and ends by
raising the wrapped error — without entering the degraded path. -/
lemma retryLoop_generic_fail (env : ImgEnv) (mr : Nat)
    (h1 : env.imreadOk = true) (h2 : env.preprocessOk = false) :
    ∀ fuel attempt last sl pc tc fb, attempt + fuel = mr → 1 ≤ fuel →
    retryLoop env mr fuel attempt last ⟨sl, pc, tc, fb⟩
    = (.error .wrappedGeneric,
       ⟨sl ++ (List.range' attempt (fuel - 1)).map (fun n => 2 ^ n),
        pc, tc, fb⟩) := by
  intro fuel
  induction fuel with
  | zero => intro attempt last sl pc tc fb hsum hge; omega
  | succ f ih =>
    intro attempt last sl pc tc fb hsum hge
    have hstep : attemptOnce env ⟨sl, pc, tc, fb⟩
        = (.error .genericExc, ⟨sl, pc, tc, fb⟩) := by
      unfold attemptOnce
      rw [h1, h2]
      simp
    simp only [retryLoop]
    rw [hstep]
    dsimp only
    match f, hsum with
    | 0, hsum =>
      have hlast : ¬attempt < mr - 1 := by omega
      rw [if_neg hlast]
      simp
    | f' + 1, hsum =>
      have hcont : attempt < mr - 1 := by omega
      rw [if_pos hcont]
      have h := ih (attempt + 1) (some .wrappedGeneric) (sl ++ [2 ^ attempt])
        pc tc fb (by omega) (by omega)
      rw [h]
      have hr : List.range' attempt (f' + 1 + 1 - 1) =
          attempt :: List.range' (attempt + 1) f' := by
        have : f' + 1 + 1 - 1 = f' + 1 := by omega
        rw [this]
        exact List.range'_succ _ _ _
      rw [hr]
      simp [List.append_assoc]

/-- Lemma: `Trace.init` written with the enabled-backend counter shape used
by the loop lemmas (both counters start at attempt 0). -/
lemma trace_init_counts (env : ImgEnv) :
    (Trace.init : Trace)
      = ⟨[], (if env.paddleEnabled then 0 else 0),
            (if env.tessEnabled then 0 else 0), 0⟩ := by
  simp [Trace.init]

/-! ## C4 — exponential backoff schedule -/

/-- C4: when reading and preprocessing succeed but every attempt's
fusion is empty, the retry controller records exactly the sleeps
`2^0, 2^1, …, 2^(max_retries-2)` — `2^n` seconds after failed attempt
`n`, and no sleep after the final attempt (the degraded path records
none). -/
theorem backoff_schedule (env : ImgEnv) (max_retries : Nat)
    (h1 : env.imreadOk = true) (h2 : env.preprocessOk = true)
    (hmr : 1 ≤ max_retries)
    (hfail : ∀ j, j < max_retries → fusionAt env j = "") :
    (extract_text_from_image env max_retries).2.sleeps
      = (List.range (max_retries - 1)).map (fun n => 2 ^ n) := by
  unfold extract_text_from_image
  rw [trace_init_counts env,
    retryLoop_all_fail env max_retries h1 h2 max_retries 0 none [] 0
      (by omega) hmr (fun j _ hj => hfail j hj),
    fallback_single_engine_sleeps]
  simp [List.range_eq_range']

/-- The spec's backoff scenario: both backends enabled but always
empty, `max_retries = 4` → the recorded sleeps are exactly
`[1, 2, 4]`. -/
theorem backoff_schedule_witness :
    (extract_text_from_image
      ⟨true, true, true, true, fun _ => [], fun _ => []⟩ 4).2.sleeps
      = [1, 2, 4] := by
  have h := backoff_schedule ⟨true, true, true, true, fun _ => [], fun _ => []⟩
    4 rfl rfl (by omega) (fun j _ => rfl)
  rw [h]
  rfl

/-! ## C3 — degradation to the single-engine path -/

/-- C3: with both backends enabled, reading and preprocessing fine,
the primary always empty and the secondary empty on every
full-pipeline attempt, the engine — after exhausting all retries —
runs the degraded single-pass path exactly once (trying the backends
one at a time, primary first): if the secondary's first degraded call
is non-empty its joined text is returned (trace: the recorded backoff
sleeps, one extra call of each backend, exactly one degraded run);
only if the degraded calls are also empty does the request fail with
the terminal exhaustion error. -/
theorem degraded_single_engine_fallback (env : ImgEnv) (max_retries : Nat)
    (h1 : env.imreadOk = true) (h2 : env.preprocessOk = true)
    (hp : env.paddleEnabled = true) (ht : env.tessEnabled = true)
    (hmr : 1 ≤ max_retries)
    (hpaddle : ∀ j, env.paddle j = [])
    (htess : ∀ j, j < max_retries → env.tess j = []) :
    (env.tess max_retries ≠ [] →
      extract_text_from_image env max_retries
        = (.ok (joinLines (env.tess max_retries)),
           ⟨(List.range (max_retries - 1)).map (fun n => 2 ^ n),
            max_retries + 1, max_retries + 1, 1⟩))
    ∧ (env.tess max_retries = [] →
      (extract_text_from_image env max_retries).1
        = .error .fallbackExhausted) := by
  have hfail : ∀ j, 0 ≤ j → j < max_retries → fusionAt env j = "" := by
    intro j _ hj
    unfold fusionAt
    rw [hp, ht]
    simp [hpaddle j, htess j hj, merge_results_nil_nil]
  have hmain : extract_text_from_image env max_retries
      = fallback_single_engine env
          ⟨(List.range (max_retries - 1)).map (fun n => 2 ^ n),
           max_retries, max_retries, 0⟩ := by
    unfold extract_text_from_image
    rw [trace_init_counts env,
      retryLoop_all_fail env max_retries h1 h2 max_retries 0 none [] 0
        (by omega) hmr hfail]
    rw [hp, ht]
    simp [List.range_eq_range']
  have hfb : ∀ tr : List String, env.tess max_retries = tr →
      fallback_single_engine env
        ⟨(List.range (max_retries - 1)).map (fun n => 2 ^ n),
         max_retries, max_retries, 0⟩
      = (if tr ≠ [] then .ok (joinLines tr) else .error .fallbackExhausted,
         ⟨(List.range (max_retries - 1)).map (fun n => 2 ^ n),
          max_retries + 1, max_retries + 1, 1⟩) := by
    intro tr htr
    unfold fallback_single_engine
    rw [h1]
    simp only [hp, ht, Bool.true_eq_false, if_false, if_true, hpaddle, htr]
    simp
    split <;> simp
  constructor
  · intro hne
    rw [hmain, hfb _ rfl, if_pos hne]
  · intro hempty
    rw [hmain, hfb _ hempty]
    simp

/-- The spec's degradation scenario: primary always empty, secondary
empty on the three full attempts but `["ok"]` on its first degraded
call (`max_retries = 3`, so call index 3) → the request returns
`"ok"` after sleeps `[1, 2]`, one degraded run. -/
theorem degraded_single_engine_fallback_witness :
    extract_text_from_image
      ⟨true, true, true, true, fun _ => [],
       fun j => if j = 3 then ["ok"] else []⟩ 3
      = (.ok "ok", ⟨[1, 2], 4, 4, 1⟩) := by
  have h := (degraded_single_engine_fallback
    ⟨true, true, true, true, fun _ => [],
     fun j => if j = 3 then ["ok"] else []⟩ 3
    rfl rfl rfl rfl (by omega) (fun j => rfl)
    (fun j hj => by interval_cases j <;> rfl)).1 (by simp)
  rw [h]
  rfl

/-! ## C10 — non-OCR errors skip the degradation path -/

/-- C10: when the image reads fine but preprocessing raises a
non-`OCRException` error (so every attempt, the final one included,
fails through the generic handler), the request raises the wrapped
error: the backoff sleeps of the non-final attempts are recorded, no
backend is ever called, and the degraded single-engine path is never
entered (`fallbackRuns = 0`) — degradation is reserved for a final
attempt that fails with the pipeline's own `OCRException`. -/
theorem non_ocr_error_skips_fallback (env : ImgEnv) (max_retries : Nat)
    (h1 : env.imreadOk = true) (h2 : env.preprocessOk = false)
    (hmr : 1 ≤ max_retries) :
    extract_text_from_image env max_retries
      = (.error .wrappedGeneric,
         ⟨(List.range (max_retries - 1)).map (fun n => 2 ^ n), 0, 0, 0⟩) := by
  unfold extract_text_from_image
  rw [show (Trace.init : Trace) = ⟨[], 0, 0, 0⟩ from rfl,
    retryLoop_generic_fail env max_retries h1 h2 max_retries 0 none [] 0 0 0
      (by omega) hmr]
  simp [List.range_eq_range']

/-- A run with failing preprocessing and `max_retries = 3`: the
request errors out with the wrapped generic error after sleeps
`[1, 2]`, with zero backend calls and zero degraded runs. -/
theorem non_ocr_error_skips_fallback_witness :
    extract_text_from_image
      ⟨true, false, true, true, fun _ => ["x"], fun _ => ["y"]⟩ 3
      = (.error .wrappedGeneric, ⟨[1, 2], 0, 0, 0⟩) := by
  have h := non_ocr_error_skips_fallback
    ⟨true, false, true, true, fun _ => ["x"], fun _ => ["y"]⟩ 3 rfl rfl
    (by omega)
  rw [h]
  rfl

/-! ## C5 — multi-page (PDF) extraction -/

/-- The page loop gathers exactly the marked texts of the pages whose
fusion is non-empty, in source page order. -/
lemma pdfPages_ok (env : PdfEnv) (hpre : ∀ j, env.preprocessOk j = true) :
    ∀ (m i pc tc : Nat),
    (env.paddleEnabled = true → pc = i) → (env.tessEnabled = true → tc = i) →
    pdfPages env m i pc tc
      = .ok ((List.range' i m).filterMap (fun j =>
          if pdfPageText env j = "" then none
          else some (pageMark (j + 1) (pdfPageText env j)))) := by
  intro m
  induction m with
  | zero =>
    intro i pc tc hpc htc
    simp [pdfPages]
  | succ m ih =>
    intro i pc tc hpc htc
    have hstep : List.range' i (m + 1) = i :: List.range' (i + 1) m :=
      List.range'_succ _ _ _
    rw [hstep, List.filterMap_cons]
    by_cases hp : env.paddleEnabled = true <;>
      by_cases ht3 : env.tessEnabled = true
    · rw [hpc hp, htc ht3] at *
      simp only [pdfPages, hpre i, hp, ht3, Bool.true_eq_false, if_false,
        if_true]
      rw [ih (i + 1) (i + 1) (i + 1) (fun _ => rfl) (fun _ => rfl)]
      simp only [pdfPageText, hp, ht3, if_true]
      split <;> rfl
    · rw [hpc hp] at *
      simp only [pdfPages, hpre i, hp, ht3, Bool.true_eq_false,
        Bool.false_eq_true, if_false, if_true]
      rw [ih (i + 1) (i + 1) tc (fun _ => rfl) (fun h => absurd h ht3)]
      simp only [pdfPageText, hp, ht3, Bool.false_eq_true, if_true, if_false]
      split <;> rfl
    · rw [htc ht3] at *
      simp only [pdfPages, hpre i, hp, ht3, Bool.true_eq_false,
        Bool.false_eq_true, if_false, if_true]
      rw [ih (i + 1) pc (i + 1) (fun h => absurd h hp) (fun _ => rfl)]
      simp only [pdfPageText, hp, ht3, Bool.false_eq_true, if_true, if_false]
      split <;> rfl
    · simp only [pdfPages, hpre i, hp, ht3, Bool.true_eq_false,
        Bool.false_eq_true, if_false, if_true]
      rw [ih (i + 1) pc tc (fun h => absurd h hp) (fun h => absurd h ht3)]
      simp only [pdfPageText, hp, ht3, Bool.false_eq_true, if_true, if_false]
      split <;> rfl

/-- C5 counterexample: on the 3-page document whose page 2 fails, the
request returns exactly the concatenation of pages 1 and 3 with their
page markers — a plain string in which the failed page 2 is silently
omitted (the output does not even contain the character `2`), and the
result type carries no `PartialPageFailure` annotation naming the
failed page. -/
theorem pdf_failed_page_not_annotated :
    extract_text_from_pdf pdfEnvC5
      = .ok ("--- 第 1 页 ---\na\n\n--- 第 3 页 ---\nb")
    ∧ ("--- 第 1 页 ---\na\n\n--- 第 3 页 ---\nb").toList.contains '2'
      = false := by
  constructor
  · rfl
  · rfl

/-- C5 (amended): each page gets one pass of
preprocess → dual-backend recognition → fusion, independently; if
every page's fusion is empty the whole request fails; if at least one
page succeeds, the result is the concatenation of the successful
pages' marked texts in source page order joined by the page-boundary
separator, the failed pages being silently omitted (no
`PartialPageFailure` annotation accompanies the result). -/
theorem pdf_successful_pages_concatenation (env : PdfEnv)
    (himp : env.pdf2imageOk = true) (n : Nat) (hconv : env.convert = .ok n)
    (hn : n ≠ 0) (hpre : ∀ j, env.preprocessOk j = true) :
    ((∀ i, i < n → pdfPageText env i = "") →
      extract_text_from_pdf env = .error .pdfAllEmpty)
    ∧ (∀ i, i < n → pdfPageText env i ≠ "" →
      extract_text_from_pdf env
        = .ok (String.intercalate "\n\n"
            ((List.range n).filterMap (fun j =>
              if pdfPageText env j = "" then none
              else some (pageMark (j + 1) (pdfPageText env j)))))) := by
  have hpages := pdfPages_ok env hpre n 0 0 0
    (fun _ => rfl) (fun _ => rfl)
  constructor
  · intro hall
    have hnil : (List.range' 0 n).filterMap (fun j =>
        if pdfPageText env j = "" then none
        else some (pageMark (j + 1) (pdfPageText env j))) = [] := by
      refine List.filterMap_eq_nil_iff.mpr ?_
      intro a ha
      have ha' : a < n := by
        have := (List.mem_range'_1.mp ha).2
        omega
      rw [if_pos (hall a ha')]
    unfold extract_text_from_pdf
    rw [himp, hconv]
    simp only [Bool.true_eq_false, if_false, if_neg hn, hpages, hnil]
  · intro i hi hne
    unfold extract_text_from_pdf
    rw [himp, hconv]
    simp only [Bool.true_eq_false, if_false, if_neg hn, hpages,
      ← List.range_eq_range']
    cases hl : (List.range n).filterMap (fun j =>
        if pdfPageText env j = "" then none
        else some (pageMark (j + 1) (pdfPageText env j))) with
    | nil =>
      exfalso
      have := List.filterMap_eq_nil_iff.mp hl i (by
        rw [List.mem_range]; exact hi)
      rw [if_neg hne] at this
      exact Option.some_ne_none _ this
    | cons x xs => rfl

/-- The amended C5 applied to the 3-page scenario (page 1 = `"a"`,
page 2 empty, page 3 = `"b"`). -/
theorem pdf_successful_pages_concatenation_witness :
    extract_text_from_pdf pdfEnvC5
      = .ok (String.intercalate "\n\n"
          ((List.range 3).filterMap (fun j =>
            if pdfPageText pdfEnvC5 j = "" then none
            else some (pageMark (j + 1) (pdfPageText pdfEnvC5 j))))) := by
  exact (pdf_successful_pages_concatenation pdfEnvC5 rfl 3 rfl (by omega)
    (fun _ => rfl)).2 0 (by omega) (by decide)

end ExcellentCase
